import Mathlib

/-!
Verification of the stroke-warning-system repository against its
natural-language specification.  The Python sources are shallowly embedded:
each Lean definition below mirrors one function (or one code path) of the
repository; machine floats that only ever hold exact decimal literals are
modelled as rationals, Python ints as `Int`/`Nat`, and fallible operations
as `Option`/`Except`.
-/

namespace StrokeWarning

/-- A patient feature set, mirroring the fields of the `Patient` model in
`models.py` / the JSON payload accepted by `add_patient` in `app.py`.
Numeric clinical values are modelled as rationals, the 0/1 flags as
integers, and the categorical fields as strings. -/
structure PatientData where
  name : String
  age : ℚ
  gender : String
  hypertension : ℤ
  heart_disease : ℤ
  ever_married : String
  work_type : String
  residence_type : String
  avg_glucose_level : ℚ
  bmi : ℚ
  smoking_status : String
deriving DecidableEq, Repr

/-- The additive rule-based risk score of `predict_stroke` in `app.py`
(lines 361-394): `risk_score` starts at 0 and each factor's `if`/`elif`
chain adds its bucket's points, so the result is the sum of the six
independent bucket contributions. -/
def riskScore (p : PatientData) : ℕ :=
  (if p.age > 60 then 30 else if p.age > 45 then 15 else 0)
  + (if p.hypertension = 1 then 25 else 0)
  + (if p.heart_disease = 1 then 25 else 0)
  + (if p.avg_glucose_level > 125 then 15 else if p.avg_glucose_level > 100 then 10 else 0)
  + (if p.bmi > 30 then 10 else if p.bmi > 25 then 5 else 0)
  + (if p.smoking_status = "smokes" then 15
     else if p.smoking_status = "formerly smoked" then 8 else 0)

/-- `probability = min(risk_score / 100, 0.95)` from `app.py` line 396
(Python 3 true division, modelled over ℚ). -/
def probability (p : PatientData) : ℚ :=
  min ((riskScore p : ℚ) / 100) (95 / 100)

/-- The returned label of `predict_stroke` (`app.py` line 399):
`'High Risk' if probability > 0.5 else 'Low Risk'`. -/
def predict_stroke (p : PatientData) : String :=
  if probability p > 1 / 2 then "High Risk" else "Low Risk"

/-- The high-risk example input of the spec: age 65, hypertension 1,
heart disease 1, glucose 228.69, bmi 28.5, "formerly smoked". -/
def highRiskExample : PatientData :=
  { name := "John Smith", age := 65, gender := "Male", hypertension := 1,
    heart_disease := 1, ever_married := "Yes", work_type := "Private",
    residence_type := "Urban", avg_glucose_level := 22869 / 100,
    bmi := 57 / 2, smoking_status := "formerly smoked" }

/-- The low-risk example input of the spec: age 28, no hypertension, no
heart disease, glucose 95.12, bmi 21.8, "never smoked". -/
def lowRiskExample : PatientData :=
  { name := "Jane Doe", age := 28, gender := "Female", hypertension := 0,
    heart_disease := 0, ever_married := "No", work_type := "Private",
    residence_type := "Rural", avg_glucose_level := 9512 / 100,
    bmi := 109 / 5, smoking_status := "never smoked" }

/-- The age bucket index used by the monotonicity claim: 0 for ages ≤ 45,
1 for the (45, 60] bucket, 2 for ages > 60, following the comparisons of
`predict_stroke` lines 364-367. -/
def ageBucket (a : ℚ) : ℕ :=
  if a > 60 then 2 else if a > 45 then 1 else 0

/-- The high-risk example with every scoring-irrelevant field changed
(name, gender, marital status, work type, residence type). -/
def highRiskAltFields : PatientData :=
  { name := "A", age := 65, gender := "Female", hypertension := 1,
    heart_disease := 1, ever_married := "No", work_type := "Govt_job",
    residence_type := "Rural", avg_glucose_level := 22869 / 100,
    bmi := 57 / 2, smoking_status := "formerly smoked" }

/-- C1 counterexample: on the spec's own high-risk example the rule
buckets sum to 108, so the risk score does NOT lie in the interval
[0, 100] as the claim states. -/
theorem C1_counterexample :
    riskScore highRiskExample = 108 ∧ ¬ riskScore highRiskExample ≤ 100 := by
  constructor
  · norm_num [riskScore, highRiskExample]
    decide
  · norm_num [riskScore, highRiskExample]
    decide

/-- C1 (amended): for every patient feature set the risk score is the
additive bucket sum and lies in [0, 120] (the sum of the maximal bucket
points 30+25+25+15+10+15; it can exceed 100), the probability is exactly
min(score/100, 0.95), and the probability lies in [0, 0.95]. -/
theorem C1_score_and_probability_bounds (p : PatientData) :
    riskScore p ≤ 120 ∧
    probability p = min ((riskScore p : ℚ) / 100) (95 / 100) ∧
    0 ≤ probability p ∧ probability p ≤ 95 / 100 := by
  refine ⟨?_, rfl, ?_, ?_⟩
  · unfold riskScore
    split_ifs <;> omega
  · unfold probability
    apply le_min
    · positivity
    · norm_num
  · exact min_le_right _ _

/-- C2: the two worked examples of the spec.  The high-risk input scores
30+25+25+15+5+8 = 108 with probability min(1.08, 0.95) = 0.95 and label
"High Risk"; the low-risk input scores 0 with probability 0 and label
"Low Risk". -/
theorem C2_examples :
    riskScore highRiskExample = 108 ∧
    probability highRiskExample = 95 / 100 ∧
    predict_stroke highRiskExample = "High Risk" ∧
    riskScore lowRiskExample = 0 ∧
    probability lowRiskExample = 0 ∧
    predict_stroke lowRiskExample = "Low Risk" := by
  have h1 : riskScore highRiskExample = 108 := by
    norm_num [riskScore, highRiskExample]
    decide
  have h2 : riskScore lowRiskExample = 0 := by
    norm_num [riskScore, lowRiskExample]
    decide
  have p1 : probability highRiskExample = 95 / 100 := by
    rw [probability, h1]; norm_num [min_def]
  have p2 : probability lowRiskExample = 0 := by
    rw [probability, h2]; norm_num [min_def]
  refine ⟨h1, p1, ?_, h2, p2, ?_⟩
  · rw [predict_stroke, p1]; norm_num
  · rw [predict_stroke, p2]; norm_num

/-- C9: holding every field other than age fixed, an input whose age falls
in a strictly lower age bucket (≤45 vs (45,60] vs >60) never receives a
higher risk score. -/
theorem C9_age_monotonicity (p q : PatientData)
    (_hn : p.name = q.name) (_hg : p.gender = q.gender)
    (hh : p.hypertension = q.hypertension)
    (hd : p.heart_disease = q.heart_disease)
    (_hm : p.ever_married = q.ever_married) (_hw : p.work_type = q.work_type)
    (_hr : p.residence_type = q.residence_type)
    (hgl : p.avg_glucose_level = q.avg_glucose_level)
    (hb : p.bmi = q.bmi) (hs : p.smoking_status = q.smoking_status)
    (hage : ageBucket p.age < ageBucket q.age) :
    riskScore p ≤ riskScore q := by
  have key : (if p.age > 60 then 30 else if p.age > 45 then 15 else 0 : ℕ) ≤
      (if q.age > 60 then 30 else if q.age > 45 then 15 else 0 : ℕ) := by
    unfold ageBucket at hage
    split_ifs at hage ⊢ <;> omega
  unfold riskScore
  rw [hh, hd, hgl, hb, hs]
  omega

/-- C9 witness: concrete instantiation at the two spec examples made to
agree on all fields but age (ages 28 and 65, buckets 0 < 2). -/
theorem C9_witness :
    riskScore { lowRiskExample with age := 28 } ≤
      riskScore { lowRiskExample with age := 65 } :=
  C9_age_monotonicity _ _ rfl rfl rfl rfl rfl rfl rfl rfl rfl rfl (by decide)

/-- C10: the scorer reads only age, hypertension, heart_disease,
avg_glucose_level, bmi and smoking_status: two inputs agreeing on those
six fields get the same score, probability and label, whatever their
name, gender, marital status, work type or residence type. -/
theorem C10_noninterference (p q : PatientData)
    (hage : p.age = q.age) (hh : p.hypertension = q.hypertension)
    (hd : p.heart_disease = q.heart_disease)
    (hgl : p.avg_glucose_level = q.avg_glucose_level)
    (hb : p.bmi = q.bmi) (hs : p.smoking_status = q.smoking_status) :
    riskScore p = riskScore q ∧ probability p = probability q ∧
    predict_stroke p = predict_stroke q := by
  have hscore : riskScore p = riskScore q := by
    unfold riskScore
    rw [hage, hh, hd, hgl, hb, hs]
  have hprob : probability p = probability q := by
    unfold probability
    rw [hscore]
  exact ⟨hscore, hprob, by unfold predict_stroke; rw [hprob]⟩

/-- C10 witness: the high-risk example compared with a copy of itself that
differs in name, gender, marital status, work type and residence type. -/
theorem C10_witness :
    riskScore highRiskExample = riskScore highRiskAltFields ∧
    probability highRiskExample = probability highRiskAltFields ∧
    predict_stroke highRiskExample = predict_stroke highRiskAltFields :=
  C10_noninterference _ _ rfl rfl rfl rfl rfl rfl

/-! ### add_patient validation (`app.py` lines 126-137) -/

/-- The `required_fields` list of `add_patient` (`app.py` lines 126-130):
`bmi` is among the required fields. -/
def required_fields : List String :=
  ["name", "age", "gender", "hypertension", "heart_disease",
   "ever_married", "work_type", "residence_type", "avg_glucose_level",
   "bmi", "smoking_status"]

/-- The validation loop of `add_patient` (`app.py` lines 132-137): the
first required field absent from the request body produces the 400
response message; `none` means validation passes and the handler goes on
to call `predict_stroke`. -/
def add_patient_validation (keys : List String) : Option String :=
  (required_fields.find? (fun f => !(keys.contains f))).map
    (fun f => "Missing required field: " ++ f)

/-- The BMI bucket of `predict_stroke` (`app.py` lines 384-387), shared
with the corresponding summand of `riskScore`. -/
def bmiPoints (b : ℚ) : ℕ :=
  if b > 30 then 10 else if b > 25 then 5 else 0

/-- The bmi coercion of `update_patient` (`app.py` line 251) and of
`migrate_data` (line 57): an absent bmi is replaced by `0.0`. -/
def update_patient_bmi (b : Option ℚ) : ℚ := b.getD 0

/-- C3 counterexample: a request carrying every required field except
`bmi` is rejected by `add_patient` with a validation error naming `bmi`,
so at the scoring entry point a missing bmi IS an error, contrary to the
claim. -/
theorem C3_counterexample :
    add_patient_validation
      ["name", "age", "gender", "hypertension", "heart_disease",
       "ever_married", "work_type", "residence_type", "avg_glucose_level",
       "smoking_status"] = some "Missing required field: bmi" := by
  decide

/-- C3 (amended): at `add_patient` every one of the eleven required
fields — `bmi` included — is validated: a request missing any one of them
fails with a validation error naming that field and no default is
substituted there.  The substitute-0-for-missing-bmi behavior exists only
on the `update_patient`/`migrate_data` paths, where an absent bmi becomes
`0.0`, which earns 0 points from the BMI buckets. -/
theorem C3_validation_amended :
    (∀ f ∈ required_fields,
       add_patient_validation (required_fields.erase f) =
         some ("Missing required field: " ++ f)) ∧
    bmiPoints (update_patient_bmi none) = 0 := by
  constructor
  · decide
  · norm_num [bmiPoints, update_patient_bmi]

/-- C3 witness: concrete instantiation of the amended claim at the
required field `age`. -/
theorem C3_witness :
    add_patient_validation (required_fields.erase "age") =
      some ("Missing required field: " ++ "age") :=
  C3_validation_amended.1 "age" (by decide)

/-! ### migrate_data outcome normalization (`migrate_data.py` lines 39-49) -/

/-- The outcome-value lookup of `migrate_data` (line 40):
`row.get('stroke') if 'stroke' in row else row.get('Stroke')`, with a CSV
row modelled as an association list from header names to cell values. -/
def raw_stroke (row : List (String × String)) : Option String :=
  if (row.lookup "stroke").isSome then row.lookup "stroke"
  else row.lookup "Stroke"

/-- ASCII lower-casing of one character, as Python `str.lower` acts on
the ASCII header/outcome values of the CSV. -/
def lowerCharAscii (c : Char) : Char :=
  if 'A' ≤ c ∧ c ≤ 'Z' then Char.ofNat (c.toNat + 32) else c

/-- Python's whitespace set for `str.strip`. -/
def isSpaceChar (c : Char) : Bool :=
  c == ' ' || c == '\t' || c == '\n' || c == '\r' || c == '\x0b' || c == '\x0c'

/-- Python `str.lower` on ASCII data. -/
def pyLower (s : String) : String := ⟨s.data.map lowerCharAscii⟩

/-- Python `str.strip`: drop leading and trailing whitespace. -/
def pyStrip (s : String) : String :=
  ⟨((s.data.dropWhile isSpaceChar).reverse.dropWhile isSpaceChar).reverse⟩

/-- The outcome normalization of `migrate_data` (lines 41-49):
`stroke_val` starts at 0; a stripped value of `'0'`/`'1'` is parsed as
that digit, a lowercased `'yes'`/`'y'`/`'true'` becomes 1, a lowercased
`'no'`/`'n'`/`'false'` becomes 0, and anything else (including an absent
value) leaves the default 0. -/
def normalize_stroke (raw : Option String) : ℤ :=
  match raw with
  | none => 0
  | some r =>
    let s := pyStrip r
    if s = "0" ∨ s = "1" then (if s = "1" then 1 else 0)
    else if pyLower s = "yes" ∨ pyLower s = "y" ∨ pyLower s = "true" then 1
    else if pyLower s = "no" ∨ pyLower s = "n" ∨ pyLower s = "false" then 0
    else 0

/-- C5: every boolean-like outcome representation is normalized to 0/1 —
`"1"`, and any casing of `"yes"`/`"true"`, map to 1; `"0"`, and any
casing of `"no"`/`"false"`, map to 0 — and both the lower-case `stroke`
and the capitalized `Stroke` header are recognized. -/
theorem C5_normalization (s v : String) :
    (pyStrip s = "1" → normalize_stroke (some s) = 1) ∧
    (pyStrip s = "0" → normalize_stroke (some s) = 0) ∧
    (pyLower (pyStrip s) = "yes" → normalize_stroke (some s) = 1) ∧
    (pyLower (pyStrip s) = "true" → normalize_stroke (some s) = 1) ∧
    (pyLower (pyStrip s) = "no" → normalize_stroke (some s) = 0) ∧
    (pyLower (pyStrip s) = "false" → normalize_stroke (some s) = 0) ∧
    raw_stroke [("stroke", v)] = some v ∧
    raw_stroke [("Stroke", v)] = some v := by
  have hne : ∀ (t w : String), pyLower t = w →
      (∀ u : String, pyLower u ≠ w → t ≠ u) := by
    intro t w ht u hu he
    rw [he] at ht
    exact hu ht
  refine ⟨?_, ?_, ?_, ?_, ?_, ?_, ?_, ?_⟩
  · intro h; simp [normalize_stroke, h]
  · intro h; simp [normalize_stroke, h]
  · intro h
    have h0 := hne _ _ h "0" (by decide)
    have h1 := hne _ _ h "1" (by decide)
    simp [normalize_stroke, h, h0, h1]
  · intro h
    have h0 := hne _ _ h "0" (by decide)
    have h1 := hne _ _ h "1" (by decide)
    simp [normalize_stroke, h, h0, h1]
  · intro h
    have h0 := hne _ _ h "0" (by decide)
    have h1 := hne _ _ h "1" (by decide)
    simp [normalize_stroke, h, h0, h1]
  · intro h
    have h0 := hne _ _ h "0" (by decide)
    have h1 := hne _ _ h "1" (by decide)
    simp [normalize_stroke, h, h0, h1]
  · simp [raw_stroke]
  · simp [raw_stroke]

/-- C5 witness: concrete instantiation at the mixed-case value `"YES"`
and a row keyed by the capitalized header. -/
theorem C5_witness :
    normalize_stroke (some "YES") = 1 ∧ raw_stroke [("Stroke", "1")] = some "1" :=
  ⟨(C5_normalization "YES" "1").2.2.1 (by decide),
   (C5_normalization "YES" "1").2.2.2.2.2.2.2⟩

/-! ### training-data labeling (`train_model.py` lines 36-52, `migrate_data.py` lines 39-75) -/

/-- The label-relevant part of a persisted patient row: the nullable
`stroke_prediction` column (`models.py`). -/
structure DbPatient where
  name : String
  stroke_prediction : Option ℤ
deriving DecidableEq, Repr

/-- The row loop of `load_data_from_database` (`train_model.py` lines
37-52): a patient whose `stroke_prediction` is `None` is skipped
(`continue`); every other patient contributes one training row labeled
`int(patient.stroke_prediction)`.  Only the label-relevant fields are
modelled. -/
def load_data_from_database (ps : List DbPatient) : List (DbPatient × ℤ) :=
  ps.filterMap (fun p => p.stroke_prediction.map (fun w => (p, w)))

/-- The stored outcome of a migrated CSV row (`migrate_data.py` lines
41-49 and 75): the normalized `stroke_val` — an integer, never `None` —
is stored as the new patient's `stroke_prediction`. -/
def migrate_stroke (row : List (String × String)) : Option ℤ :=
  some (normalize_stroke (raw_stroke row))

/-- C7 counterexample: a CSV row with no outcome column at all is
migrated with the fabricated label 0 (not `None`), and the resulting
record IS included in the training data produced by
`load_data_from_database` — so a record whose outcome indicator is absent
can reach preprocessing and training, contrary to the claim. -/
theorem C7_counterexample :
    raw_stroke [("age", "50")] = none ∧
    migrate_stroke [("age", "50")] = some 0 ∧
    load_data_from_database [⟨"Patient 1", migrate_stroke [("age", "50")]⟩] =
      [(⟨"Patient 1", some 0⟩, 0)] := by
  refine ⟨?_, ?_, ?_⟩ <;> decide

/-- C7 (amended): `load_data_from_database` excludes every record whose
stored `stroke_prediction` is `None`, and every included training row
carries exactly its record's stored label; however `migrate_data`
substitutes 0 for an absent (or unrecognized) CSV outcome, so such rows
enter the database labeled 0 and are not excluded. -/
theorem C7_labeling_amended (ps : List DbPatient) (p : DbPatient) (v : ℤ) :
    (p.stroke_prediction = none →
       ∀ w, (p, w) ∉ load_data_from_database ps) ∧
    ((p, v) ∈ load_data_from_database ps → p.stroke_prediction = some v) ∧
    (∀ row : List (String × String), raw_stroke row = none →
       migrate_stroke row = some 0) := by
  have key : ∀ w, (p, w) ∈ load_data_from_database ps →
      p.stroke_prediction = some w := by
    intro w hw
    simp only [load_data_from_database, List.mem_filterMap] at hw
    obtain ⟨q, _, hmap⟩ := hw
    rw [Option.map_eq_some'] at hmap
    obtain ⟨u, hu, heq⟩ := hmap
    have hqp : q = p := congrArg Prod.fst heq
    have huw : u = w := congrArg Prod.snd heq
    rw [← hqp, hu, huw]
  refine ⟨?_, key v, ?_⟩
  · intro hnone w hw
    have hsome := key w hw
    rw [hnone] at hsome
    exact Option.noConfusion hsome
  · intro row hrow
    rw [migrate_stroke, hrow]
    rfl

/-- C7 witness: a record with a `None` outcome is not in the training
rows built from a store containing just that record. -/
theorem C7_witness :
    ((⟨"q", none⟩ : DbPatient), (0 : ℤ)) ∉
      load_data_from_database [⟨"q", none⟩] :=
  (C7_labeling_amended [⟨"q", none⟩] ⟨"q", none⟩ 0).1 rfl 0

/-! ### stratified-split diversity guard (`train_model.py` lines 216-222) -/

/-- `Series.nunique`: the number of distinct values of a label list. -/
def nunique (l : List ℤ) : ℕ := l.dedup.length

/-- The class-diversity guard following the stratified split
(`train_model.py` line 222): the run proceeds with the partition only if
`y_train.nunique() > 1 and y_test.nunique() > 1`, and otherwise aborts
with `AssertionError: Train/test must contain both classes.` -/
def split_with_guard (ytrain ytest : List ℤ) :
    Except String (List ℤ × List ℤ) :=
  if 1 < nunique ytrain ∧ 1 < nunique ytest then Except.ok (ytrain, ytest)
  else Except.error "Train/test must contain both classes."

theorem nunique_le_one_of_const (l : List ℤ) (c : ℤ)
    (h : ∀ x ∈ l, x = c) : nunique l ≤ 1 := by
  unfold nunique
  rcases hd : l.dedup with _ | ⟨a, _ | ⟨b, t⟩⟩
  · simp
  · simp
  · exfalso
    have ha : a ∈ l.dedup := by rw [hd]; exact List.mem_cons_self a _
    have hb : b ∈ l.dedup := by
      rw [hd]; exact List.mem_cons_of_mem a (List.mem_cons_self b t)
    have hnd := l.nodup_dedup
    rw [hd] at hnd
    have hab : a ≠ b := by
      intro he
      exact (List.nodup_cons.mp hnd).1 (he ▸ List.mem_cons_self b t)
    have hac : a = c := h a (List.mem_dedup.mp ha)
    have hbc : b = c := h b (List.mem_dedup.mp hb)
    exact hab (hac.trans hbc.symm)

theorem two_mem_of_one_lt_nunique (l : List ℤ) (h : 1 < nunique l) :
    ∃ a b, a ∈ l ∧ b ∈ l ∧ a ≠ b := by
  unfold nunique at h
  rcases hd : l.dedup with _ | ⟨a, _ | ⟨b, t⟩⟩
  · rw [hd] at h; simp at h
  · rw [hd] at h; simp at h
  · have ha : a ∈ l.dedup := by rw [hd]; exact List.mem_cons_self a _
    have hb : b ∈ l.dedup := by
      rw [hd]; exact List.mem_cons_of_mem a (List.mem_cons_self b t)
    have hnd := l.nodup_dedup
    rw [hd] at hnd
    refine ⟨a, b, List.mem_dedup.mp ha, List.mem_dedup.mp hb, ?_⟩
    intro he
    exact (List.nodup_cons.mp hnd).1 (he ▸ List.mem_cons_self b t)

/-- C6: (1) when every usable record of the dataset carries the same
outcome class, any train/test partition drawn from it fails the
diversity guard with the insufficient-diversity error instead of being
returned; (2) whenever the guard does return a partition of a dataset
whose outcome classes are the binary labels 0/1, each side contains at
least one example of every outcome value occurring in the dataset. -/
theorem C6_split_diversity :
    (∀ (y ytrain ytest : List ℤ) (c : ℤ),
       (∀ x ∈ y, x = c) → (∀ x ∈ ytrain, x ∈ y) → (∀ x ∈ ytest, x ∈ y) →
       split_with_guard ytrain ytest =
         Except.error "Train/test must contain both classes.") ∧
    (∀ (y ytrain ytest : List ℤ) (r : List ℤ × List ℤ),
       (∀ x ∈ y, x = 0 ∨ x = 1) →
       (∀ x ∈ ytrain, x ∈ y) → (∀ x ∈ ytest, x ∈ y) →
       split_with_guard ytrain ytest = Except.ok r →
       ∀ c ∈ y, c ∈ ytrain ∧ c ∈ ytest) := by
  constructor
  · intro y ytr yte c hy htr _
    have h1 : nunique ytr ≤ 1 :=
      nunique_le_one_of_const ytr c (fun x hx => hy x (htr x hx))
    unfold split_with_guard
    have hneg : ¬(1 < nunique ytr ∧ 1 < nunique yte) := by
      intro hcon
      omega
    rw [if_neg hneg]
  · intro y ytr yte r hy htr hte hok
    unfold split_with_guard at hok
    split_ifs at hok with hcond
    · obtain ⟨h1, h2⟩ := hcond
      have both : ∀ l : List ℤ, 1 < nunique l → (∀ x ∈ l, x ∈ y) →
          (0 : ℤ) ∈ l ∧ (1 : ℤ) ∈ l := by
        intro l hl hsub
        obtain ⟨a, b, ha, hb, hne⟩ := two_mem_of_one_lt_nunique l hl
        rcases hy a (hsub a ha) with rfl | rfl <;>
          rcases hy b (hsub b hb) with rfl | rfl
        · exact absurd rfl hne
        · exact ⟨ha, hb⟩
        · exact ⟨hb, ha⟩
        · exact absurd rfl hne
      have htr01 := both ytr h1 htr
      have hte01 := both yte h2 hte
      intro c hc
      rcases hy c hc with rfl | rfl
      · exact ⟨htr01.1, hte01.1⟩
      · exact ⟨htr01.2, hte01.2⟩

/-- C6 witness: a four-record single-class dataset and a partition of it
are rejected by the diversity guard. -/
theorem C6_witness :
    split_with_guard [1, 1, 1] [1] =
      Except.error "Train/test must contain both classes." :=
  C6_split_diversity.1 [1, 1, 1, 1] [1, 1, 1] [1] 1
    (by decide) (by decide) (by decide)

/-! ### categorical encoding in preprocess_data (`train_model.py` lines 99-105) -/

/-- Lexicographic (code-point) comparison of character lists, the order
numpy uses when `LabelEncoder.fit` sorts the distinct category strings. -/
def charListLe : List Char → List Char → Bool
  | [], _ => true
  | _ :: _, [] => false
  | a :: as, b :: bs =>
    if a < b then true else if b < a then false else charListLe as bs

/-- String comparison via `charListLe`. -/
def strLe (a b : String) : Bool := charListLe a.data b.data

/-- Insertion into a sorted list of strings. -/
def insertSorted (x : String) : List String → List String
  | [] => [x]
  | y :: ys => if strLe x y then x :: y :: ys else y :: insertSorted x ys

/-- `LabelEncoder.fit`: the fitted `classes_` are the sorted distinct
values of the fitted column. -/
def leClasses (xs : List String) : List String :=
  xs.dedup.foldr insertSorted []

/-- Index of the first occurrence of a string in a list, `none` when the
string does not occur. -/
def indexOfStr (x : String) : List String → Option ℕ
  | [] => none
  | y :: ys => if y = x then some 0 else (indexOfStr x ys).map (· + 1)

/-- `LabelEncoder.transform` (sklearn semantics, the encoder used by
`preprocess_data`): each value is replaced by its index in the fitted
`classes_`, and a value that was not seen at fit time raises a
`ValueError` about previously unseen labels. -/
def leTransform (classes : List String) : List String → Except String (List ℕ)
  | [] => Except.ok []
  | x :: xs =>
    match indexOfStr x classes with
    | none => Except.error ("y contains previously unseen labels: " ++ x)
    | some i =>
      match leTransform classes xs with
      | Except.ok rest => Except.ok (i :: rest)
      | Except.error e => Except.error e

/-- The categorical encoding of `preprocess_data` (`train_model.py`
lines 100-105): every categorical column is encoded by
`le.fit_transform(df[col])` — the encoder is refit on the column at hand
and immediately applied to that same column. -/
def le_fit_transform (xs : List String) : Except String (List ℕ) :=
  leTransform (leClasses xs) xs

theorem mem_insertSorted (a x : String) (l : List String) :
    a ∈ insertSorted x l ↔ a = x ∨ a ∈ l := by
  induction l with
  | nil => simp [insertSorted]
  | cons y ys ih =>
    unfold insertSorted
    split_ifs
    · simp
    · simp only [List.mem_cons, ih]
      tauto

theorem mem_leClasses (a : String) (xs : List String) :
    a ∈ leClasses xs ↔ a ∈ xs := by
  unfold leClasses
  rw [← List.mem_dedup (l := xs) (a := a)]
  induction xs.dedup with
  | nil => simp
  | cons y ys ih => simp [List.foldr_cons, mem_insertSorted, ih]

theorem indexOfStr_isSome_iff (x : String) (l : List String) :
    (indexOfStr x l).isSome ↔ x ∈ l := by
  induction l with
  | nil => simp [indexOfStr]
  | cons y ys ih =>
    unfold indexOfStr
    split_ifs with h
    · simp [h]
    · simpa [Ne.symm h] using ih

theorem leTransform_ok_of_subset (classes ys : List String)
    (h : ∀ x ∈ ys, x ∈ classes) :
    ∃ l, leTransform classes ys = Except.ok l ∧ l.length = ys.length := by
  induction ys with
  | nil => exact ⟨[], rfl, rfl⟩
  | cons x xs ih =>
    have hx : (indexOfStr x classes).isSome :=
      (indexOfStr_isSome_iff x classes).mpr (h x (List.mem_cons_self x xs))
    obtain ⟨i, hi⟩ := Option.isSome_iff_exists.mp hx
    obtain ⟨l, hl, hlen⟩ := ih (fun z hz => h z (List.mem_cons_of_mem x hz))
    refine ⟨i :: l, ?_, by simp [hlen]⟩
    unfold leTransform
    rw [hi, hl]

/-- C4 counterexample: fitting the encoder on the categories `"b"`, `"c"`
and then transforming records containing the unseen category `"a"` fails
with an unseen-label error — `"a"` is not mapped to any reserved
"unknown" code. -/
theorem C4_counterexample :
    leTransform (leClasses ["b", "c"]) ["a", "b"] =
      Except.error ("y contains previously unseen labels: " ++ "a") := by
  rfl

/-- C4 (amended): `preprocess_data` never meets an unseen category —
not because of a reserved "unknown" code, which does not exist, but
because it refits the encoder on every call (`fit_transform`): encoding
the column it was just fitted on always succeeds, while applying the
fitted encoder to a category outside the fitted column errors rather
than mapping to an "unknown" code. -/
theorem C4_encoding_amended :
    (∀ xs : List String, ∃ l : List ℕ,
       le_fit_transform xs = Except.ok l ∧ l.length = xs.length) ∧
    (∀ (xs : List String) (c : String), c ∉ xs →
       leTransform (leClasses xs) [c] =
         Except.error ("y contains previously unseen labels: " ++ c)) := by
  constructor
  · intro xs
    exact leTransform_ok_of_subset (leClasses xs) xs
      (fun x hx => (mem_leClasses x xs).mpr hx)
  · intro xs c hc
    have hnone : indexOfStr c (leClasses xs) = none := by
      rcases hi : indexOfStr c (leClasses xs) with _ | i
      · rfl
      · exact absurd ((mem_leClasses c xs).mp
          ((indexOfStr_isSome_iff c (leClasses xs)).mp (by rw [hi]; rfl))) hc
    unfold leTransform
    rw [hnone]

/-- C4 witness: the fitted encoder from the single-category column `"b"`
rejects the unseen category `"a"`. -/
theorem C4_witness :
    leTransform (leClasses ["b"]) ["a"] =
      Except.error ("y contains previously unseen labels: " ++ "a") :=
  C4_encoding_amended.2 ["b"] "a" (by decide)

/-! ### evaluate_model (`train_model.py` lines 131-159) -/

/-- `accuracy_score`: fraction of positions where prediction equals
truth. -/
def accuracy_score (yt yp : List ℤ) : ℚ :=
  (((yt.zip yp).countP (fun ab => ab.1 == ab.2) : ℚ)) / (yt.length : ℚ)

/-- True positives for the positive label 1. -/
def truePos (yt yp : List ℤ) : ℕ :=
  (yt.zip yp).countP (fun ab => ab.1 == 1 && ab.2 == 1)

/-- False positives for the positive label 1. -/
def falsePos (yt yp : List ℤ) : ℕ :=
  (yt.zip yp).countP (fun ab => !(ab.1 == 1) && ab.2 == 1)

/-- False negatives for the positive label 1. -/
def falseNeg (yt yp : List ℤ) : ℕ :=
  (yt.zip yp).countP (fun ab => ab.1 == 1 && !(ab.2 == 1))

/-- True negatives for the positive label 1. -/
def trueNeg (yt yp : List ℤ) : ℕ :=
  (yt.zip yp).countP (fun ab => !(ab.1 == 1) && !(ab.2 == 1))

/-- `precision_score(..., zero_division=0)`: TP/(TP+FP), or 0 when no
positive was predicted. -/
def precision_score (yt yp : List ℤ) : ℚ :=
  if truePos yt yp + falsePos yt yp = 0 then 0
  else (truePos yt yp : ℚ) / ((truePos yt yp + falsePos yt yp : ℕ) : ℚ)

/-- `recall_score(..., zero_division=0)`: TP/(TP+FN), or 0 when no
positive is present in the truth. -/
def recall_score (yt yp : List ℤ) : ℚ :=
  if truePos yt yp + falseNeg yt yp = 0 then 0
  else (truePos yt yp : ℚ) / ((truePos yt yp + falseNeg yt yp : ℕ) : ℚ)

/-- `f1_score(..., zero_division=0)`: 2·TP/(2·TP+FP+FN), or 0 when that
denominator vanishes. -/
def f1_score (yt yp : List ℤ) : ℚ :=
  if 2 * truePos yt yp + falsePos yt yp + falseNeg yt yp = 0 then 0
  else (2 * truePos yt yp : ℚ) /
    ((2 * truePos yt yp + falsePos yt yp + falseNeg yt yp : ℕ) : ℚ)

/-- `confusion_matrix` for the binary labels 0/1: `[[TN, FP], [FN, TP]]`. -/
def confusion_matrix (yt yp : List ℤ) : List (List ℕ) :=
  [[trueNeg yt yp, falsePos yt yp], [falseNeg yt yp, truePos yt yp]]

/-- `roc_auc_score` (sklearn semantics): the probability that a positive
example outranks a negative one (ties counted half); `none` models the
`ValueError` raised when only one class is present in `y_true`. -/
def roc_auc_score (yt : List ℤ) (ys : List ℚ) : Option ℚ :=
  let pairs := yt.zip ys
  let pos := (pairs.filter (fun ab => ab.1 == 1)).map (fun ab => ab.2)
  let neg := (pairs.filter (fun ab => !(ab.1 == 1))).map (fun ab => ab.2)
  if pos.isEmpty || neg.isEmpty then none
  else some
    ((pos.map (fun p => (neg.map (fun n =>
        if n < p then (1 : ℚ) else if n = p then 1 / 2 else 0)).sum)).sum /
      ((pos.length : ℚ) * (neg.length : ℚ)))

/-- The outputs one candidate model exposes on the test set: its
predictions, its `predict_proba` matrix when it has one (`hasattr`), and
its `classes_` attribute when it has one (`getattr(..., None)`). -/
structure ModelOnTest where
  yPred : List ℤ
  probaMatrix : Option (List (List ℚ))
  classes : Option (List ℤ)
deriving Repr

/-- The probability column picked in `evaluate_model` (line 148-149):
the column of class 1 when 1 is among the classes, else column 1. -/
def proba_column (cs : List ℤ) (P : List (List ℚ)) : List ℚ :=
  P.map (fun row => row.getD (if cs.contains 1 then cs.findIdx (fun c => c == 1) else 1) 0)

/-- The metrics dictionary assembled by `evaluate_model`. -/
structure EvalMetrics where
  accuracy : ℚ
  precisionVal : ℚ
  recallVal : ℚ
  f1 : ℚ
  confusion : List (List ℕ)
  rocAuc : Option ℚ
deriving Repr

/-- `evaluate_model` (`train_model.py` lines 131-159): always computes
accuracy, precision, recall, F1 and the confusion matrix from
`y_pred = model.predict(X_test)`; sets `roc_auc` to `None` when the model
has no `predict_proba`, when `classes_` is absent or has at most one
entry, or when `roc_auc_score` raises a `ValueError` — and to the
computed score otherwise. -/
def evaluate_model (m : ModelOnTest) (yTest : List ℤ) : EvalMetrics :=
  { accuracy := accuracy_score yTest m.yPred
    precisionVal := precision_score yTest m.yPred
    recallVal := recall_score yTest m.yPred
    f1 := f1_score yTest m.yPred
    confusion := confusion_matrix yTest m.yPred
    rocAuc :=
      match m.probaMatrix with
      | none => none
      | some P =>
        match m.classes with
        | none => none
        | some cs =>
          if 1 < cs.length then roc_auc_score yTest (proba_column cs P)
          else none }

/-- C8: whenever ROC-AUC is undefined — the model has no probability
estimate, exposes no class list, exposes fewer than two classes, or the
score computation itself rejects the inputs — the report's ROC-AUC field
is `none` instead of an error; and the remaining metrics are produced
unconditionally from truth and predictions. -/
theorem C8_roc_auc_null (m : ModelOnTest) (yTest : List ℤ) :
    (m.probaMatrix = none → (evaluate_model m yTest).rocAuc = none) ∧
    (m.classes = none → (evaluate_model m yTest).rocAuc = none) ∧
    (∀ cs, m.classes = some cs → cs.length ≤ 1 →
       (evaluate_model m yTest).rocAuc = none) ∧
    (∀ P cs, m.probaMatrix = some P → m.classes = some cs →
       roc_auc_score yTest (proba_column cs P) = none →
       (evaluate_model m yTest).rocAuc = none) ∧
    ((evaluate_model m yTest).accuracy = accuracy_score yTest m.yPred ∧
     (evaluate_model m yTest).precisionVal = precision_score yTest m.yPred ∧
     (evaluate_model m yTest).recallVal = recall_score yTest m.yPred ∧
     (evaluate_model m yTest).f1 = f1_score yTest m.yPred ∧
     (evaluate_model m yTest).confusion = confusion_matrix yTest m.yPred) := by
  refine ⟨?_, ?_, ?_, ?_, rfl, rfl, rfl, rfl, rfl⟩
  · intro h
    simp [evaluate_model, h]
  · intro h
    rcases hm : m.probaMatrix with _ | P <;> simp [evaluate_model, hm, h]
  · intro cs hcs hlen
    rcases hm : m.probaMatrix with _ | P
    · simp [evaluate_model, hm]
    · simp only [evaluate_model, hm, hcs]
      rw [if_neg (by omega)]
  · intro P cs hP hcs hscore
    simp only [evaluate_model, hP, hcs]
    split_ifs with h
    · exact hscore
    · rfl

/-- C8 witness: a model without `predict_proba` (and without classes)
gets a `none` ROC-AUC on a two-class test fold. -/
theorem C8_witness :
    (evaluate_model ⟨[0, 1], none, none⟩ [0, 1]).rocAuc = none :=
  (C8_roc_auc_null ⟨[0, 1], none, none⟩ [0, 1]).1 rfl

end StrokeWarning
